import Mathlib

/-!
Shallow embedding of the loan-ops repository (loan matching workflow,
match-scoring service, LLM post-processing and the matches query route),
together with proofs of the specification claims about them.

Conventions of the embedding:
* Python dicts / JSON values are modelled by the `Json` inductive; a SQL
  `NULL` in a nullable column is modelled by `Json.null` (for `match_score`
  and `match_analysis`) or by `Option` (for text columns).
* Machine floats only ever carry decimal score literals in this code base,
  so numbers are modelled by `Rat`.
* The database is modelled as a pure state (`DB`); each ORM commit is a
  pure state transformation, and every step also returns the list of
  states right after each commit, so "at every observable point" claims
  quantify over those snapshots.
* External collaborators (the OpenAI chat call and `json.loads`) are
  modelled by an environment value `LLMOutcome`: the call either raises or
  returns a response text together with the result of parsing it.
* Python exceptions are modelled with `Except String`; the string is the
  `str(e)` text of the exception.
-/

/-- JSON values / Python dict values as stored in the JSON columns. -/
inductive Json where
  | null : Json
  | bool (b : Bool) : Json
  | num (q : Rat) : Json
  | str (s : String) : Json
  | arr (elems : List Json) : Json
  | obj (entries : List (String × Json)) : Json

/-- True exactly on the JSON null value (Python `None` / SQL `NULL`). -/
def Json.isNull : Json → Bool
  | .null => true
  | _ => false

/-- Python truthiness of a JSON value (`bool(x)`): `None`, `False`, `0`,
empty string, empty list and empty dict are falsy. -/
def Json.truthy : Json → Bool
  | .null => false
  | .bool b => b
  | .num q => !(q == 0)
  | .str s => !s.isEmpty
  | .arr elems => !elems.isEmpty
  | .obj entries => !entries.isEmpty

/-- Dictionary key lookup (`d[k]` / `k in d`), first matching entry. -/
def Json.lookup : Json → String → Option Json
  | .obj entries, k => entries.lookup k
  | _, _ => none

/-- Python `d.get(k, default)` on an object; non-objects have no keys. -/
def Json.getD (j : Json) (k : String) (d : Json) : Json :=
  (j.lookup k).getD d

/-- Assignment `d[k] = v` on a Python dict: replace the value of an
existing key in place, otherwise append the new entry at the end. -/
def setEntries (entries : List (String × Json)) (k : String) (v : Json) :
    List (String × Json) :=
  if entries.any (fun p => p.1 == k) then
    entries.map (fun p => if p.1 == k then (p.1, v) else p)
  else
    entries ++ [(k, v)]

/-- Item assignment `j[k] = v`; on a non-dict Python raises a `TypeError`
(whose interpreter-generated message we abbreviate). -/
def Json.setKey : Json → String → Json → Except String Json
  | .obj entries, k, v => .ok (.obj (setEntries entries k v))
  | _, _, _ => .error "object does not support item assignment"

/-- Python `x or {}`: keep `x` when truthy, otherwise the empty dict.
`none` models a SQL NULL in the `processed_data` column. -/
def pyOr (j : Option Json) : Json :=
  match j with
  | some v => if v.truthy then v else Json.obj []
  | none => Json.obj []

/-- Outcome of one `client.chat.completions.create` call together with the
subsequent `json.loads` of its message content: the call either raises, or
returns the content text, the parse result of that text (`none` when the
text is not valid JSON) and the token usage. -/
inductive LLMOutcome where
  | raiseErr (msg : String) : LLMOutcome
  | respond (content : String) (parsed : Option Json) (tokens : Nat) : LLMOutcome

/-- Result dict of `MatchService.calculate_match_score`. -/
structure MatchResult where
  match_score : Json
  match_analysis : Json

/-- Model name the workflow's `MatchService()` is constructed with. -/
def matchModel : String := "gpt-4o-mini"

/-- Temperature the workflow's `MatchService()` is constructed with. -/
def matchTemperature : Rat := 2 / 10

/-- Embedding of `MatchService.calculate_match_score`
(src/app/services/match_service.py): validate the client and both input
dicts, call the LLM, fall back to a score-0 error envelope when the
response is not valid JSON, attach the `_metadata` dict, and extract
`match_score` (defaulting to 0).  Any exception is re-raised as
`RuntimeError("Match calculation failed: " + str(e))`. -/
def MatchService.calculate_match_score (clientOk : Bool)
    (application_data lender_data : Json) (lender_name : String)
    (application_id lender_id : Nat) (llm : LLMOutcome) :
    Except String MatchResult :=
  let wrap : String → Except String MatchResult :=
    fun msg => .error ("Match calculation failed: " ++ msg)
  if !clientOk then wrap "OpenAI API key not configured"
  else if !application_data.truthy then wrap "Application data is empty"
  else if !lender_data.truthy then wrap "Lender data is empty"
  else
    match llm with
    | .raiseErr msg => wrap msg
    | .respond content parsed tokens =>
      let match_analysis :=
        match parsed with
        | some j => j
        | none =>
          Json.obj [("match_score", Json.num 0),
                    ("match_category", Json.str "error"),
                    ("error", Json.str "Failed to parse response"),
                    ("raw_response", Json.str content)]
      match match_analysis.setKey "_metadata"
          (Json.obj [("model", Json.str matchModel),
                     ("temperature", Json.num matchTemperature),
                     ("tokens_used", Json.num (tokens : Rat)),
                     ("application_id", Json.num (application_id : Rat)),
                     ("lender_id", Json.num (lender_id : Rat)),
                     ("lender_name", Json.str lender_name),
                     ("calculation_successful", Json.bool true)]) with
      | .error e => wrap e
      | .ok analysis =>
        .ok { match_score := analysis.getD "match_score" (Json.num 0),
              match_analysis := analysis }

/-- The fixed required-field list of `LLMService.validate_and_enrich_data`
(src/app/services/llm_service.py). -/
def required_fields : List String :=
  ["loan_types", "interest_rates", "eligibility_criteria"]

/-- Embedding of `LLMService.validate_and_enrich_data`: on a dict input,
attach a `_validation` entry with per-field presence flags and a
completeness score; any exception (e.g. a non-dict input, where the item
assignment would raise) returns the original data unchanged. -/
def LLMService.validate_and_enrich_data (processed_data : Json)
    (_raw_text : String) : Json :=
  match processed_data with
  | Json.obj entries =>
    let validation_status : List (String × Bool) :=
      required_fields.map fun field =>
        (field,
         match entries.lookup field with
         | some v => !v.isNull
         | none => false)
    let completeness_score : Rat :=
      ((validation_status.countP (fun p => p.2) : Rat)) /
        (required_fields.length : Rat)
    Json.obj (setEntries entries "_validation"
      (Json.obj [("field_completeness",
                   Json.obj (validation_status.map fun p => (p.1, Json.bool p.2))),
                 ("completeness_score", Json.num completeness_score)]))
  | j => j

/-- Enumeration `LenderStatus` (src/app/models/lender.py). -/
inductive LenderStatus where
  | UPLOADED | PROCESSING | COMPLETED | FAILED
deriving DecidableEq

/-- Enumeration `ApplicationStatus` (src/app/models/loan_application.py). -/
inductive ApplicationStatus where
  | UPLOADED | PROCESSING | COMPLETED | FAILED
deriving DecidableEq

/-- Enumeration `MatchStatus` (src/app/models/loan_application.py). -/
inductive MatchStatus where
  | PENDING | PROCESSING | COMPLETED | FAILED
deriving DecidableEq

/-- Row of the `lenders` table (the fields the workflow reads). -/
structure Lender where
  id : Nat
  lender_name : String
  status : LenderStatus
  processed_data : Option Json

/-- Row of the `loan_applications` table (the fields the workflow reads
and writes). -/
structure LoanApplication where
  id : Nat
  status : ApplicationStatus
  processed_data : Option Json

/-- Row of the `loan_matches` table.  `Json.null` in `match_score` /
`match_analysis` models a SQL NULL. -/
structure LoanMatch where
  loan_application_id : Nat
  lender_id : Nat
  match_score : Json
  match_analysis : Json
  status : MatchStatus
  error_message : Option String

/-- The relational store. -/
structure DB where
  applications : List LoanApplication
  lenders : List Lender
  loan_matches : List LoanMatch

/-- Embedding of `select(LoanApplication).where(LoanApplication.id == id)`
with `scalar_one_or_none()`. -/
def find_application (db : DB) (application_id : Nat) : Option LoanApplication :=
  db.applications.find? (fun a => a.id == application_id)

/-- Embedding of `select(Lender).where(Lender.id == id)` with
`scalar_one_or_none()`. -/
def find_lender (db : DB) (lender_id : Nat) : Option Lender :=
  db.lenders.find? (fun l => l.id == lender_id)

/-- Embedding of `update(LoanApplication).where(id == application_id)
.values(status=st)`. -/
def update_application_status (db : DB) (application_id : Nat)
    (st : ApplicationStatus) : DB :=
  { db with
    applications := db.applications.map fun a =>
      if a.id == application_id then { a with status := st } else a }

/-- The WHERE clause shared by every `update(LoanMatch)` in the workflow:
`loan_application_id == application_id AND lender_id == lender_id`. -/
def rowKeyB (m : LoanMatch) (application_id lender_id : Nat) : Bool :=
  m.loan_application_id == application_id && m.lender_id == lender_id

/-- Embedding of `update(LoanMatch).where(...).values(...)`: apply `f` to
every row of the (application, lender) pair. -/
def update_match_rows (db : DB) (application_id lender_id : Nat)
    (f : LoanMatch → LoanMatch) : DB :=
  { db with
    loan_matches := db.loan_matches.map fun m =>
      if rowKeyB m application_id lender_id then f m else m }

/-- Embedding of `LoanMatchingWorkflow._get_all_active_lenders`: all
lenders currently in COMPLETED status (the downstream code only uses their
ids and re-fetches the rest, so we keep the rows). -/
def get_all_active_lenders (db : DB) : List Lender :=
  db.lenders.filter (fun l => l.status == LenderStatus.COMPLETED)

/-- Embedding of `LoanMatchingWorkflow._create_match_records`: insert one
PENDING `LoanMatch` row per lender id, in one commit. -/
def create_match_records (db : DB) (application_id : Nat)
    (lender_ids : List Nat) : DB :=
  { db with
    loan_matches := db.loan_matches ++ lender_ids.map fun lid =>
      { loan_application_id := application_id
        lender_id := lid
        match_score := Json.null
        match_analysis := Json.null
        status := MatchStatus.PENDING
        error_message := none } }

/-- Output of a step: the database after the step, the snapshots taken
right after each commit the step performed (in order), and the step's
return value. -/
structure StepResult (α : Type) where
  db : DB
  commits : List DB
  out : α

/-- Return dict of `_calculate_single_match` (error path has no
`match_score` key, success path has no `error` key). -/
structure WorkerResult where
  success : Bool
  application_id : Nat
  lender_id : Nat
  match_score : Option Json
  error : Option String

/-- Return dict of the `prepare_matching` step (the fields the later steps
read). -/
structure PrepareResult where
  application_id : Nat
  lender_ids : List Nat

/-- Return dict of the `calculate_matches` step.  `total_count` is absent
(`none`) on the empty short-circuit branch, mirroring the source dict. -/
structure CalcMatchesResult where
  application_id : Nat
  matches_out : List WorkerResult
  success_count : Nat
  failure_count : Nat
  total_count : Option Nat

/-- Return dict of the `finalize_matching` step. -/
structure FinalizeResult where
  application_id : Nat
  status : String
  success_count : Nat
  failure_count : Nat

/-- Embedding of `LoanMatchingWorkflow._calculate_single_match`: fetch the
application and the lender (a missing row raises), mark the pair
PROCESSING, score it, then mark it COMPLETED with score and analysis, or
FAILED with the exception text; the except-branch returns a structured
failure dict instead of re-raising. -/
def calculate_single_match (clientOk : Bool) (llm : Nat → LLMOutcome)
    (application_id lender_id : Nat) (db : DB) : StepResult WorkerResult :=
  let failWith : String → DB → StepResult WorkerResult := fun e dbIn =>
    let dbF := update_match_rows dbIn application_id lender_id fun m =>
      { m with status := MatchStatus.FAILED, error_message := some e }
    { db := dbF, commits := [dbF],
      out := { success := false, application_id := application_id,
               lender_id := lender_id, match_score := none, error := some e } }
  match find_application db application_id with
  | none => failWith s!"Application {application_id} not found" db
  | some app =>
    match find_lender db lender_id with
    | none => failWith s!"Lender {lender_id} not found" db
    | some lender =>
      let db1 := update_match_rows db application_id lender_id fun m =>
        { m with status := MatchStatus.PROCESSING }
      match MatchService.calculate_match_score clientOk
          (pyOr app.processed_data) (pyOr lender.processed_data)
          lender.lender_name application_id lender_id (llm lender_id) with
      | .ok r =>
        let db2 := update_match_rows db1 application_id lender_id fun m =>
          { m with match_score := r.match_score,
                   match_analysis := r.match_analysis,
                   status := MatchStatus.COMPLETED }
        { db := db2, commits := [db1, db2],
          out := { success := true, application_id := application_id,
                   lender_id := lender_id, match_score := some r.match_score,
                   error := none } }
      | .error e =>
        let db2 := update_match_rows db1 application_id lender_id fun m =>
          { m with status := MatchStatus.FAILED, error_message := some e }
        { db := db2, commits := [db1, db2],
          out := { success := false, application_id := application_id,
                   lender_id := lender_id, match_score := none,
                   error := some e } }

/-- Specification-level summary of one pair's scoring attempt: the
exception (`error`) or the scoring result (`ok`) `_calculate_single_match`
observes for this (application, lender) pair. -/
def pairOutcome (clientOk : Bool) (llm : Nat → LLMOutcome) (db : DB)
    (application_id lender_id : Nat) : Except String MatchResult :=
  match find_application db application_id with
  | none => .error s!"Application {application_id} not found"
  | some app =>
    match find_lender db lender_id with
    | none => .error s!"Lender {lender_id} not found"
    | some lender =>
      MatchService.calculate_match_score clientOk
        (pyOr app.processed_data) (pyOr lender.processed_data)
        lender.lender_name application_id lender_id (llm lender_id)

/-- Sequential composition of the per-pair workers.  The source runs them
with `asyncio.gather`; every worker only reads the application and lender
tables (which no worker writes) and only writes rows of its own
(application, lender) pair, so this sequentialization covers the
reachable row states of the cooperative fan-out. -/
def run_workers (clientOk : Bool) (llm : Nat → LLMOutcome)
    (application_id : Nat) (lender_ids : List Nat) (db : DB) :
    StepResult (List WorkerResult) :=
  match lender_ids with
  | [] => { db := db, commits := [], out := [] }
  | lid :: rest =>
    let s1 := calculate_single_match clientOk llm application_id lid db
    let s2 := run_workers clientOk llm application_id rest s1.db
    { db := s2.db, commits := s1.commits ++ s2.commits, out := s1.out :: s2.out }

/-- Embedding of the `prepare_matching` step: a missing/zero
`application_id` in the workflow input raises; with no COMPLETED lender
the step short-circuits with an empty id list and no commit; otherwise it
creates the PENDING rows (one commit) and sets the application to
PROCESSING (a second commit). -/
def prepare_matching (application_id? : Option Nat) (db : DB) :
    Except String (StepResult PrepareResult) :=
  match application_id? with
  | none => .error "application_id is required in workflow input"
  | some application_id =>
    if application_id == 0 then
      .error "application_id is required in workflow input"
    else
      let lenders := get_all_active_lenders db
      if lenders.isEmpty then
        .ok { db := db, commits := [],
              out := { application_id := application_id, lender_ids := [] } }
      else
        let lender_ids := lenders.map (·.id)
        let db1 := create_match_records db application_id lender_ids
        let db2 := update_application_status db1 application_id
          ApplicationStatus.PROCESSING
        .ok { db := db2, commits := [db1, db2],
              out := { application_id := application_id,
                       lender_ids := lender_ids } }

/-- Embedding of the `calculate_matches` step: short-circuit on an empty
id list, otherwise fan out one worker per lender id and count successes
and failures of the returned result dicts. -/
def calculate_matches (clientOk : Bool) (llm : Nat → LLMOutcome)
    (prep : PrepareResult) (db : DB) : StepResult CalcMatchesResult :=
  if prep.lender_ids.isEmpty then
    { db := db, commits := [],
      out := { application_id := prep.application_id, matches_out := [],
               success_count := 0, failure_count := 0, total_count := none } }
  else
    let s := run_workers clientOk llm prep.application_id prep.lender_ids db
    { db := s.db, commits := s.commits,
      out := { application_id := prep.application_id, matches_out := s.out,
               success_count := s.out.countP (fun r => r.success),
               failure_count := s.out.countP (fun r => !r.success),
               total_count := some prep.lender_ids.length } }

/-- Embedding of the `finalize_matching` step: unconditionally set the
application to COMPLETED (one commit) and report the counts. -/
def finalize_matching (calcRes : CalcMatchesResult) (db : DB) :
    StepResult FinalizeResult :=
  let db1 := update_application_status db calcRes.application_id
    ApplicationStatus.COMPLETED
  { db := db1, commits := [db1],
    out := { application_id := calcRes.application_id, status := "completed",
             success_count := calcRes.success_count,
             failure_count := calcRes.failure_count } }

/-- One full orchestration run: the three Hatchet steps in their declared
parent order.  `states` is the initial database followed by the snapshot
after every commit of the run. -/
structure RunOutcome where
  db : DB
  states : List DB
  prep : PrepareResult
  calcOut : CalcMatchesResult
  result : FinalizeResult

/-- Composition of the three workflow steps of `loan-matching`. -/
def run_workflow (clientOk : Bool) (llm : Nat → LLMOutcome)
    (application_id? : Option Nat) (db : DB) : Except String RunOutcome :=
  match prepare_matching application_id? db with
  | .error e => .error e
  | .ok s1 =>
    let s2 := calculate_matches clientOk llm s1.out s1.db
    let s3 := finalize_matching s2.out s2.db
    .ok { db := s3.db, states := db :: (s1.commits ++ s2.commits ++ s3.commits),
          prep := s1.out, calcOut := s2.out, result := s3.out }

/-- HTTP error responses of the matches route. -/
inductive ApiError where
  | notFound (detail : String) : ApiError
  | badRequest (detail : String) : ApiError

/-- Embedding of `MatchStatus(s)` over the persisted enum string values. -/
def matchStatusFromString (s : String) : Option MatchStatus :=
  if s == "pending" then some MatchStatus.PENDING
  else if s == "processing" then some MatchStatus.PROCESSING
  else if s == "completed" then some MatchStatus.COMPLETED
  else if s == "failed" then some MatchStatus.FAILED
  else none

/-- SQL `match_score >= min_score` on a nullable float column: a NULL
score satisfies no comparison. -/
def scoreGeB (m : LoanMatch) (min_score : Rat) : Bool :=
  match m.match_score with
  | Json.num x => decide (min_score ≤ x)
  | _ => false

/-- Sort key of `ORDER BY match_score DESC`; a NULL sorts above every
number (Postgres places NULLs first in descending order). -/
def scoreKey (m : LoanMatch) : WithTop Rat :=
  match m.match_score with
  | Json.num x => (x : WithTop Rat)
  | _ => (⊤ : WithTop Rat)

/-- Row order produced by `ORDER BY match_score DESC`: `a` may come
before `b` when `a`'s key is at least `b`'s. -/
def matchDescOrder (a b : LoanMatch) : Prop :=
  scoreKey b ≤ scoreKey a

instance : DecidableRel matchDescOrder :=
  fun a b => inferInstanceAs (Decidable (scoreKey b ≤ scoreKey a))

instance : IsTotal LoanMatch matchDescOrder :=
  ⟨fun a b => (le_total (scoreKey b) (scoreKey a)).imp id id⟩

instance : IsTrans LoanMatch matchDescOrder :=
  ⟨fun _ _ _ h1 h2 => le_trans h2 h1⟩

/-- The status-filter clause of `get_application_matches`: skipped for an
absent or empty (falsy) `status_filter`, a 400 error on an unknown value,
otherwise a WHERE clause on the parsed status. -/
def apply_status_filter (base : List LoanMatch) (status_filter : Option String) :
    Except ApiError (List LoanMatch) :=
  match status_filter with
  | none => .ok base
  | some s =>
    if s == "" then .ok base
    else
      match matchStatusFromString s.toLower with
      | some st => .ok (base.filter (fun m => m.status == st))
      | none => .error (ApiError.badRequest s!"Invalid status: {s}")

/-- Embedding of the route handler `get_application_matches`
(src/app/routers/loan_application_routes.py): 404 when the application
does not exist, then WHERE application id, the optional status filter,
the optional `match_score >= min_score` filter, and ORDER BY score
descending. -/
def get_application_matches (db : DB) (application_id : Nat)
    (status_filter : Option String) (min_score : Option Rat) :
    Except ApiError (List LoanMatch) :=
  match find_application db application_id with
  | none =>
    .error (ApiError.notFound
      s!"Loan Application with ID {application_id} not found")
  | some _ =>
    let base := db.loan_matches.filter
      (fun m => m.loan_application_id == application_id)
    match apply_status_filter base status_filter with
    | .error e => .error e
    | .ok filtered =>
      let filtered2 :=
        match min_score with
        | some q => filtered.filter (fun m => scoreGeB m q)
        | none => filtered
      .ok (List.insertionSort matchDescOrder filtered2)

/-! Association-list lemmas about `setEntries` and `List.lookup`. -/

/-- Head reduction of `List.lookup` when the searched key matches. -/
theorem lookup_cons_eq (k0 : String) (v0 : Json) (es : List (String × Json)) :
    List.lookup k0 ((k0, v0) :: es) = some v0 := by
  simp [List.lookup]

/-- Head reduction of `List.lookup` when the searched key differs. -/
theorem lookup_cons_ne (a k0 : String) (v0 : Json) (es : List (String × Json))
    (h : a ≠ k0) :
    List.lookup a ((k0, v0) :: es) = List.lookup a es := by
  have hb : (a == k0) = false := beq_false_of_ne h
  simp [List.lookup, hb]

/-- Replacing the value of a present key makes lookup of that key find the
new value. -/
theorem lookup_map_replace (k : String) (v : Json) :
    ∀ es : List (String × Json), es.any (fun p => p.1 == k) = true →
      (es.map (fun p => if p.1 == k then (p.1, v) else p)).lookup k = some v := by
  intro es
  induction es with
  | nil => intro h; simp at h
  | cons hd tl ih =>
    obtain ⟨k0, v0⟩ := hd
    intro h
    rw [List.map_cons]
    by_cases hk : k0 = k
    · subst hk
      rw [if_pos (by simp)]
      exact lookup_cons_eq k0 v _
    · have hb : (k0 == k) = false := beq_false_of_ne hk
      rw [if_neg (by simp [hb])]
      rw [lookup_cons_ne k k0 v0 _ (fun he => hk he.symm)]
      exact ih (by simpa [List.any_cons, hb] using h)

/-- Lookup of a key distinct from the replaced one is unchanged. -/
theorem lookup_map_replace_ne (k k' : String) (v : Json) (h : k' ≠ k) :
    ∀ es : List (String × Json),
      (es.map (fun p => if p.1 == k then (p.1, v) else p)).lookup k' =
        es.lookup k' := by
  intro es
  induction es with
  | nil => rfl
  | cons hd tl ih =>
    obtain ⟨k0, v0⟩ := hd
    rw [List.map_cons]
    by_cases hk : k0 = k
    · subst hk
      rw [if_pos (by simp)]
      rw [lookup_cons_ne k' k0 v _ (fun he => h (he.trans rfl)),
          lookup_cons_ne k' k0 v0 _ (fun he => h (he.trans rfl))]
      exact ih
    · have hb : (k0 == k) = false := beq_false_of_ne hk
      rw [if_neg (by simp [hb])]
      by_cases he : k' = k0
      · subst he
        rw [lookup_cons_eq k' v0 _, lookup_cons_eq k' v0 _]
      · rw [lookup_cons_ne k' k0 v0 _ he, lookup_cons_ne k' k0 v0 _ he]
        exact ih

/-- Lookup of a key absent from the prefix finds an appended entry. -/
theorem lookup_append_absent (k : String) (v : Json) :
    ∀ es : List (String × Json), es.any (fun p => p.1 == k) = false →
      (es ++ [(k, v)]).lookup k = some v := by
  intro es
  induction es with
  | nil => intro _; exact lookup_cons_eq k v []
  | cons hd tl ih =>
    obtain ⟨k0, v0⟩ := hd
    intro h
    simp [List.any_cons] at h
    rw [List.cons_append]
    rw [lookup_cons_ne k k0 v0 _ (fun he => h.1 he.symm)]
    refine ih ?_
    rcases hb2 : tl.any (fun p => p.1 == k) with _ | _
    · rfl
    · rcases List.any_eq_true.mp hb2 with ⟨p, hp, hpk⟩
      exact absurd (eq_of_beq hpk) (fun he => h.2 p.1 p.2 hp he)

/-- Appending an entry with a different key does not change lookup. -/
theorem lookup_append_ne (k k' : String) (v : Json) (h : k' ≠ k) :
    ∀ es : List (String × Json),
      (es ++ [(k, v)]).lookup k' = es.lookup k' := by
  intro es
  induction es with
  | nil => simpa using lookup_cons_ne k' k v [] h
  | cons hd tl ih =>
    obtain ⟨k0, v0⟩ := hd
    rw [List.cons_append]
    by_cases he : k' = k0
    · subst he
      rw [lookup_cons_eq k' v0 _, lookup_cons_eq k' v0 _]
    · rw [lookup_cons_ne k' k0 v0 _ he, lookup_cons_ne k' k0 v0 _ he]
      exact ih

/-- `setEntries` puts the new value under the given key. -/
theorem lookup_setEntries_self (es : List (String × Json)) (k : String) (v : Json) :
    (setEntries es k v).lookup k = some v := by
  unfold setEntries
  rcases hb : es.any (fun p => p.1 == k) with _ | _
  · simpa [hb] using lookup_append_absent k v es hb
  · simpa [hb] using lookup_map_replace k v es hb

/-- `setEntries` leaves every other key unchanged. -/
theorem lookup_setEntries_ne (es : List (String × Json)) (k k' : String)
    (v : Json) (h : k' ≠ k) :
    (setEntries es k v).lookup k' = es.lookup k' := by
  unfold setEntries
  rcases hb : es.any (fun p => p.1 == k) with _ | _
  · simpa [hb] using lookup_append_ne k k' v h es
  · simpa [hb] using lookup_map_replace_ne k k' v h es

/-! Basic lemmas about the database operations. -/

/-- Match-row updates do not touch the applications table. -/
theorem update_match_rows_applications (db : DB) (aid lid : Nat)
    (f : LoanMatch → LoanMatch) :
    (update_match_rows db aid lid f).applications = db.applications := rfl

/-- Match-row updates do not touch the lenders table. -/
theorem update_match_rows_lenders (db : DB) (aid lid : Nat)
    (f : LoanMatch → LoanMatch) :
    (update_match_rows db aid lid f).lenders = db.lenders := rfl

/-- Application-status updates do not touch the match rows. -/
theorem update_application_status_matches (db : DB) (aid : Nat)
    (st : ApplicationStatus) :
    (update_application_status db aid st).loan_matches = db.loan_matches := rfl

/-- Application-status updates do not touch the lenders table. -/
theorem update_application_status_lenders (db : DB) (aid : Nat)
    (st : ApplicationStatus) :
    (update_application_status db aid st).lenders = db.lenders := rfl

/-- Match-row updates act pointwise on row positions. -/
theorem update_match_rows_getElem? (db : DB) (aid lid : Nat)
    (f : LoanMatch → LoanMatch) (i : Nat) :
    (update_match_rows db aid lid f).loan_matches[i]? =
      (db.loan_matches[i]?).map
        (fun m => if rowKeyB m aid lid then f m else m) := by
  simp [update_match_rows, List.getElem?_map]

/-- Match-row updates preserve the number of rows. -/
theorem update_match_rows_length (db : DB) (aid lid : Nat)
    (f : LoanMatch → LoanMatch) :
    (update_match_rows db aid lid f).loan_matches.length =
      db.loan_matches.length := by
  simp [update_match_rows]

/-- Extensionality for the database state. -/
theorem DB.ext' (d1 d2 : DB) (h1 : d1.applications = d2.applications)
    (h2 : d1.lenders = d2.lenders)
    (h3 : d1.loan_matches = d2.loan_matches) : d1 = d2 := by
  cases d1
  cases d2
  cases h1
  cases h2
  cases h3
  rfl

/-- Two successive updates of the same pair compose, provided the first
one does not change the key columns. -/
theorem update_match_rows_comp (db : DB) (aid lid : Nat)
    (f g : LoanMatch → LoanMatch)
    (hf : ∀ m, rowKeyB (f m) aid lid = rowKeyB m aid lid) :
    update_match_rows (update_match_rows db aid lid f) aid lid g =
      update_match_rows db aid lid (fun m => g (f m)) := by
  refine DB.ext' _ _ rfl rfl ?_
  show (db.loan_matches.map _).map _ = db.loan_matches.map _
  induction db.loan_matches with
  | nil => rfl
  | cons m t ih =>
    simp only [List.map_cons, List.cons.injEq]
    refine ⟨?_, ih⟩
    by_cases h : rowKeyB m aid lid = true
    · simp [h, hf m]
    · have h' : rowKeyB m aid lid = false := by
        cases hb : rowKeyB m aid lid with
        | false => rfl
        | true => exact absurd hb h
      simp [h']

/-- `find?` commutes with a map that preserves the predicate. -/
theorem find?_map_pred {α : Type} (p : α → Bool) (u : α → α)
    (hp : ∀ a, p (u a) = p a) :
    ∀ l : List α, List.find? p (l.map u) = (List.find? p l).map u := by
  intro l
  induction l with
  | nil => rfl
  | cons a t ih =>
    rw [List.map_cons]
    cases hpa : p a with
    | true =>
      rw [List.find?_cons_of_pos _ (by rw [hp, hpa]),
          List.find?_cons_of_pos _ hpa]
      rfl
    | false =>
      rw [List.find?_cons_of_neg _ (by rw [hp, hpa] ; exact Bool.false_ne_true),
          List.find?_cons_of_neg _ (by rw [hpa] ; exact Bool.false_ne_true)]
      exact ih

/-- Looking up an application after any status update returns the
possibly-updated record. -/
theorem find_application_update (db : DB) (aid' : Nat)
    (st : ApplicationStatus) (aid : Nat) :
    find_application (update_application_status db aid' st) aid =
      (find_application db aid).map
        (fun a => if a.id == aid' then { a with status := st } else a) := by
  unfold find_application update_application_status
  exact find?_map_pred _ _
    (fun a => by by_cases h : a.id = aid' <;> simp [h]) db.applications

/-- Looking an application up after its own status update returns the
updated record. -/
theorem find_application_update_self (db : DB) (aid : Nat)
    (st : ApplicationStatus) :
    find_application (update_application_status db aid st) aid =
      (find_application db aid).map (fun a => { a with status := st }) := by
  rw [find_application_update]
  cases h : find_application db aid with
  | none => rfl
  | some a =>
    have hid : a.id = aid := by
      have := List.find?_some h
      simpa using this
    simp [hid]

/-- `pairOutcome` only depends on the applications and lenders tables. -/
theorem pairOutcome_congr (c : Bool) (llm : Nat → LLMOutcome)
    {db1 db2 : DB} (aid lid : Nat)
    (ha : db1.applications = db2.applications)
    (hl : db1.lenders = db2.lenders) :
    pairOutcome c llm db1 aid lid = pairOutcome c llm db2 aid lid := by
  unfold pairOutcome find_application find_lender
  rw [ha, hl]

/-- `pairOutcome` is unchanged by an application status write: the worker
only reads `processed_data`, which the write preserves. -/
theorem pairOutcome_update_status (c : Bool) (llm : Nat → LLMOutcome)
    (db : DB) (aid' : Nat) (st : ApplicationStatus) (aid lid : Nat) :
    pairOutcome c llm (update_application_status db aid' st) aid lid =
      pairOutcome c llm db aid lid := by
  unfold pairOutcome
  have hl : find_lender (update_application_status db aid' st) lid =
      find_lender db lid := rfl
  rw [hl, find_application_update]
  cases h : find_application db aid with
  | none => rfl
  | some a =>
    by_cases hid : a.id = aid' <;> simp [hid]

/-- The terminal row write a worker performs for its pair, as a function
of the pair's scoring outcome. -/
def matchFinalizer (o : Except String MatchResult) (m : LoanMatch) : LoanMatch :=
  match o with
  | .ok r =>
    { m with
      match_score := r.match_score,
      match_analysis := r.match_analysis,
      status := MatchStatus.COMPLETED }
  | .error e =>
    { m with
      status := MatchStatus.FAILED,
      error_message := some e }

/-- The result dict a worker returns, as a function of the pair's scoring
outcome. -/
def workerOut (aid lid : Nat) (o : Except String MatchResult) : WorkerResult :=
  match o with
  | .ok r =>
    { success := true,
      application_id := aid,
      lender_id := lid,
      match_score := some r.match_score,
      error := none }
  | .error e =>
    { success := false,
      application_id := aid,
      lender_id := lid,
      match_score := none,
      error := some e }

/-- The database a worker leaves behind: its pair's rows are finalized
according to the pair's outcome, all other rows untouched. -/
theorem calculate_single_match_db (c : Bool) (llm : Nat → LLMOutcome)
    (aid lid : Nat) (db : DB) :
    (calculate_single_match c llm aid lid db).db =
      update_match_rows db aid lid
        (matchFinalizer (pairOutcome c llm db aid lid)) := by
  unfold calculate_single_match pairOutcome
  cases hfa : find_application db aid with
  | none => rfl
  | some app =>
    cases hfl : find_lender db lid with
    | none => rfl
    | some lender =>
      cases hcs : MatchService.calculate_match_score c (pyOr app.processed_data)
          (pyOr lender.processed_data) lender.lender_name aid lid (llm lid) with
      | ok r =>
        dsimp only
        rw [hcs]
        dsimp only
        rw [update_match_rows_comp db aid lid
              (fun m => { m with status := MatchStatus.PROCESSING })
              (fun m => { m with match_score := r.match_score, match_analysis := r.match_analysis, status := MatchStatus.COMPLETED })
              (fun m => rfl)]
        rfl
      | error e =>
        dsimp only
        rw [hcs]
        dsimp only
        rw [update_match_rows_comp db aid lid
              (fun m => { m with status := MatchStatus.PROCESSING })
              (fun m => { m with status := MatchStatus.FAILED, error_message := some e })
              (fun m => rfl)]
        rfl

/-- Every commit a worker takes is either its final database or the
intermediate PROCESSING write for its pair. -/
theorem calculate_single_match_commits (c : Bool) (llm : Nat → LLMOutcome)
    (aid lid : Nat) (db : DB) :
    ∀ t ∈ (calculate_single_match c llm aid lid db).commits,
      t = (calculate_single_match c llm aid lid db).db ∨
      t = update_match_rows db aid lid
            (fun m => { m with status := MatchStatus.PROCESSING }) := by
  intro t ht
  cases hfa : find_application db aid with
  | none =>
    simp only [calculate_single_match, hfa, List.mem_singleton] at ht ⊢
    left
    rw [ht]
  | some app =>
    cases hfl : find_lender db lid with
    | none =>
      simp only [calculate_single_match, hfa, hfl, List.mem_singleton] at ht ⊢
      left
      rw [ht]
    | some lender =>
      cases hcs : MatchService.calculate_match_score c (pyOr app.processed_data)
          (pyOr lender.processed_data) lender.lender_name aid lid (llm lid) with
      | ok r =>
        simp only [calculate_single_match, hfa, hfl, hcs] at ht ⊢
        rcases List.mem_pair.mp ht with h | h
        · right
          rw [h]
        · left
          rw [h]
      | error e =>
        simp only [calculate_single_match, hfa, hfl, hcs] at ht ⊢
        rcases List.mem_pair.mp ht with h | h
        · right
          rw [h]
        · left
          rw [h]

/-- The result dict a worker returns is determined by the pair's outcome. -/
theorem calculate_single_match_out (c : Bool) (llm : Nat → LLMOutcome)
    (aid lid : Nat) (db : DB) :
    (calculate_single_match c llm aid lid db).out =
      workerOut aid lid (pairOutcome c llm db aid lid) := by
  cases hfa : find_application db aid with
  | none =>
    simp only [calculate_single_match, pairOutcome, hfa, workerOut]
  | some app =>
    cases hfl : find_lender db lid with
    | none =>
      simp only [calculate_single_match, pairOutcome, hfa, hfl, workerOut]
    | some lender =>
      cases hcs : MatchService.calculate_match_score c (pyOr app.processed_data)
          (pyOr lender.processed_data) lender.lender_name aid lid (llm lid) with
      | ok r =>
        simp only [calculate_single_match, pairOutcome, hfa, hfl, hcs, workerOut]
      | error e =>
        simp only [calculate_single_match, pairOutcome, hfa, hfl, hcs, workerOut]

/-- A worker never touches the applications or lenders tables, neither in
its final state nor in any commit. -/
theorem calculate_single_match_tables (c : Bool) (llm : Nat → LLMOutcome)
    (aid lid : Nat) (db : DB) :
    (calculate_single_match c llm aid lid db).db.applications = db.applications ∧
    (calculate_single_match c llm aid lid db).db.lenders = db.lenders ∧
    (∀ t ∈ (calculate_single_match c llm aid lid db).commits,
      t.applications = db.applications ∧ t.lenders = db.lenders) := by
  refine ⟨?_, ?_, ?_⟩
  · rw [calculate_single_match_db]; rfl
  · rw [calculate_single_match_db]; rfl
  · intro t ht
    rcases calculate_single_match_commits c llm aid lid db t ht with h | h
    · rw [h, calculate_single_match_db]; exact ⟨rfl, rfl⟩
    · rw [h]; exact ⟨rfl, rfl⟩

/-- The finalizer never changes the key columns of a row. -/
theorem rowKeyB_matchFinalizer (o : Except String MatchResult)
    (m : LoanMatch) (aid lid : Nat) :
    rowKeyB (matchFinalizer o m) aid lid = rowKeyB m aid lid := by
  cases o <;> rfl

/-- Pointwise view of a worker's effect on the match rows. -/
theorem calculate_single_match_getElem? (c : Bool) (llm : Nat → LLMOutcome)
    (aid lid : Nat) (db : DB) (i : Nat) :
    (calculate_single_match c llm aid lid db).db.loan_matches[i]? =
      (db.loan_matches[i]?).map (fun m =>
        if rowKeyB m aid lid then
          matchFinalizer (pairOutcome c llm db aid lid) m
        else m) := by
  rw [calculate_single_match_db, update_match_rows_getElem?]

/-- The fan-out never touches the applications or lenders tables. -/
theorem run_workers_tables (c : Bool) (llm : Nat → LLMOutcome) (aid : Nat) :
    ∀ (L : List Nat) (db : DB),
      (run_workers c llm aid L db).db.applications = db.applications ∧
      (run_workers c llm aid L db).db.lenders = db.lenders ∧
      ∀ t ∈ (run_workers c llm aid L db).commits,
        t.applications = db.applications ∧ t.lenders = db.lenders := by
  intro L
  induction L with
  | nil =>
    intro db
    exact ⟨rfl, rfl, fun t ht => absurd ht (List.not_mem_nil t)⟩
  | cons lid rest ih =>
    intro db
    obtain ⟨h1, h2, h3⟩ := calculate_single_match_tables c llm aid lid db
    obtain ⟨i1, i2, i3⟩ := ih (calculate_single_match c llm aid lid db).db
    refine ⟨?_, ?_, ?_⟩
    · show (run_workers c llm aid rest
        (calculate_single_match c llm aid lid db).db).db.applications = _
      rw [i1, h1]
    · show (run_workers c llm aid rest
        (calculate_single_match c llm aid lid db).db).db.lenders = _
      rw [i2, h2]
    · intro t ht
      have ht' : t ∈ (calculate_single_match c llm aid lid db).commits ++
          (run_workers c llm aid rest
            (calculate_single_match c llm aid lid db).db).commits := ht
      rcases List.mem_append.mp ht' with h | h
      · exact h3 t h
      · obtain ⟨j1, j2⟩ := i3 t h
        exact ⟨j1.trans h1, j2.trans h2⟩

/-- The fan-out preserves the number of match rows. -/
theorem run_workers_length (c : Bool) (llm : Nat → LLMOutcome) (aid : Nat) :
    ∀ (L : List Nat) (db : DB),
      (run_workers c llm aid L db).db.loan_matches.length =
        db.loan_matches.length := by
  intro L
  induction L with
  | nil => intro db; rfl
  | cons lid rest ih =>
    intro db
    show (run_workers c llm aid rest
      (calculate_single_match c llm aid lid db).db).db.loan_matches.length = _
    rw [ih, calculate_single_match_db, update_match_rows_length]

/-- A row whose pair is not dispatched is left untouched by the fan-out. -/
theorem run_workers_row_notin (c : Bool) (llm : Nat → LLMOutcome) (aid : Nat) :
    ∀ (L : List Nat) (db : DB) (i : Nat) (m : LoanMatch),
      db.loan_matches[i]? = some m →
      (∀ lid ∈ L, rowKeyB m aid lid = false) →
      (run_workers c llm aid L db).db.loan_matches[i]? = some m := by
  intro L
  induction L with
  | nil => intro db i m hm _; exact hm
  | cons lid rest ih =>
    intro db i m hm hk
    show (run_workers c llm aid rest
      (calculate_single_match c llm aid lid db).db).db.loan_matches[i]? = some m
    refine ih _ i m ?_ (fun l hl => hk l (List.mem_cons_of_mem _ hl))
    rw [calculate_single_match_getElem?, hm]
    simp [hk lid (List.mem_cons_self lid rest)]

/-- A dispatched pair's row ends up finalized according to that pair's
outcome, regardless of the other workers. -/
theorem run_workers_row_in (c : Bool) (llm : Nat → LLMOutcome) (aid : Nat) :
    ∀ (L : List Nat) (db : DB) (i : Nat) (m : LoanMatch) (lid : Nat),
      L.Nodup → lid ∈ L →
      db.loan_matches[i]? = some m →
      rowKeyB m aid lid = true →
      (run_workers c llm aid L db).db.loan_matches[i]? =
        some (matchFinalizer (pairOutcome c llm db aid lid) m) := by
  intro L
  induction L with
  | nil => intro db i m lid _ hin; cases hin
  | cons lid0 rest ih =>
    intro db i m lid hnd hin hm hk
    have hkey : m.loan_application_id = aid ∧ m.lender_id = lid := by
      simpa [rowKeyB] using hk
    show (run_workers c llm aid rest
      (calculate_single_match c llm aid lid0 db).db).db.loan_matches[i]? = _
    rcases List.mem_cons.mp hin with heq | hrest
    · subst heq
      have hnotin : lid ∉ rest := (List.nodup_cons.mp hnd).1
      have hstep : (calculate_single_match c llm aid lid db).db.loan_matches[i]? =
          some (matchFinalizer (pairOutcome c llm db aid lid) m) := by
        rw [calculate_single_match_getElem?, hm]
        simp [hk]
      refine run_workers_row_notin c llm aid rest _ i _ hstep ?_
      intro l hl
      rw [rowKeyB_matchFinalizer]
      have hne : lid ≠ l := fun h => hnotin (h ▸ hl)
      simp [rowKeyB, hkey.2, hne]
    · have hne : lid ≠ lid0 := fun h => (List.nodup_cons.mp hnd).1 (h ▸ hrest)
      have hstep : (calculate_single_match c llm aid lid0 db).db.loan_matches[i]? =
          some m := by
        rw [calculate_single_match_getElem?, hm]
        simp [rowKeyB, hkey.2, hne]
      have htab := calculate_single_match_tables c llm aid lid0 db
      have := ih (calculate_single_match c llm aid lid0 db).db i m lid
        (List.nodup_cons.mp hnd).2 hrest hstep hk
      rw [this, pairOutcome_congr c llm aid lid htab.1 htab.2.1]

/-- The fan-out returns one structured result dict per dispatched pair,
each determined by its own pair's outcome. -/
theorem run_workers_out (c : Bool) (llm : Nat → LLMOutcome) (aid : Nat) :
    ∀ (L : List Nat) (db : DB),
      (run_workers c llm aid L db).out =
        L.map (fun lid => workerOut aid lid (pairOutcome c llm db aid lid)) := by
  intro L
  induction L with
  | nil => intro db; rfl
  | cons lid rest ih =>
    intro db
    show (calculate_single_match c llm aid lid db).out ::
        (run_workers c llm aid rest (calculate_single_match c llm aid lid db).db).out =
      _
    rw [List.map_cons, calculate_single_match_out, ih]
    have htab := calculate_single_match_tables c llm aid lid db
    have hfun : (fun l => workerOut aid l
        (pairOutcome c llm (calculate_single_match c llm aid lid db).db aid l)) =
        (fun l => workerOut aid l (pairOutcome c llm db aid l)) := by
      funext l
      rw [pairOutcome_congr c llm aid l htab.1 htab.2.1]
    rw [hfun]

/-- Finalize touches only the application row, not the match rows. -/
theorem finalize_matching_matches (cr : CalcMatchesResult) (db : DB) :
    (finalize_matching cr db).db.loan_matches = db.loan_matches := rfl

/-- The dispatch step's database is exactly the fan-out's database (the
empty short-circuit dispatches an empty fan-out). -/
theorem calculate_matches_db (c : Bool) (llm : Nat → LLMOutcome)
    (prep : PrepareResult) (db : DB) :
    (calculate_matches c llm prep db).db =
      (run_workers c llm prep.application_id prep.lender_ids db).db := by
  unfold calculate_matches
  by_cases h : prep.lender_ids.isEmpty
  · rw [if_pos h]
    rw [List.isEmpty_iff.mp h]
    rfl
  · rw [if_neg h]

/-- The dispatch step's commits are exactly the fan-out's commits. -/
theorem calculate_matches_commits (c : Bool) (llm : Nat → LLMOutcome)
    (prep : PrepareResult) (db : DB) :
    (calculate_matches c llm prep db).commits =
      (run_workers c llm prep.application_id prep.lender_ids db).commits := by
  unfold calculate_matches
  by_cases h : prep.lender_ids.isEmpty
  · rw [if_pos h]
    rw [List.isEmpty_iff.mp h]
    rfl
  · rw [if_neg h]

/-- Characterization of a successful prepare step. -/
theorem prepare_matching_spec (db : DB) (aid : Nat) (p : StepResult PrepareResult)
    (h : prepare_matching (some aid) db = Except.ok p) :
    p.out.application_id = aid ∧
    p.out.lender_ids = (get_all_active_lenders db).map (·.id) ∧
    (if (get_all_active_lenders db).isEmpty then
        p.db = db ∧ p.commits = []
      else
        p.db = update_application_status
          (create_match_records db aid ((get_all_active_lenders db).map (·.id)))
          aid ApplicationStatus.PROCESSING ∧
        p.commits =
          [create_match_records db aid ((get_all_active_lenders db).map (·.id)),
           update_application_status
             (create_match_records db aid ((get_all_active_lenders db).map (·.id)))
             aid ApplicationStatus.PROCESSING]) := by
  unfold prepare_matching at h
  dsimp only at h
  by_cases h0 : (aid == 0) = true
  · rw [if_pos h0] at h
    cases h
  · rw [if_neg h0] at h
    by_cases he : (get_all_active_lenders db).isEmpty
    · rw [if_pos he] at h
      injection h with h1
      subst h1
      refine ⟨rfl, ?_, ?_⟩
      · rw [List.isEmpty_iff.mp he]
        rfl
      · rw [if_pos he]
        exact ⟨rfl, rfl⟩
    · rw [if_neg he] at h
      injection h with h1
      subst h1
      refine ⟨rfl, rfl, ?_⟩
      rw [if_neg he]
      exact ⟨rfl, rfl⟩

/-- C1: for a run over an application with N COMPLETED lenders at
prepare-time (lender ids unique, as the primary key guarantees) and no
pre-existing match rows, Phase 1 leaves exactly N LoanMatch rows, all
PENDING, and after the finalize step those same N rows all carry a
terminal status (COMPLETED or FAILED), none PENDING or PROCESSING. -/
theorem claim_C1_match_row_lifecycle (c : Bool) (llm : Nat → LLMOutcome)
    (db : DB) (aid : Nat) (p : StepResult PrepareResult)
    (hm : db.loan_matches = [])
    (hpk : (db.lenders.map (·.id)).Nodup)
    (hprep : prepare_matching (some aid) db = Except.ok p) :
    p.db.loan_matches.length = (get_all_active_lenders db).length ∧
    (∀ m ∈ p.db.loan_matches, m.status = MatchStatus.PENDING) ∧
    (finalize_matching (calculate_matches c llm p.out p.db).out
        (calculate_matches c llm p.out p.db).db).db.loan_matches.length =
      (get_all_active_lenders db).length ∧
    ∀ m ∈ (finalize_matching (calculate_matches c llm p.out p.db).out
        (calculate_matches c llm p.out p.db).db).db.loan_matches,
      m.status = MatchStatus.COMPLETED ∨ m.status = MatchStatus.FAILED := by
  obtain ⟨haid, hids, hbranch⟩ := prepare_matching_spec db aid p hprep
  have hfinmatch : (finalize_matching (calculate_matches c llm p.out p.db).out
      (calculate_matches c llm p.out p.db).db).db.loan_matches =
      (run_workers c llm aid ((get_all_active_lenders db).map (·.id))
        p.db).db.loan_matches := by
    rw [finalize_matching_matches, calculate_matches_db, haid, hids]
  by_cases he : (get_all_active_lenders db).isEmpty
  · rw [if_pos he] at hbranch
    obtain ⟨hdb, _⟩ := hbranch
    have hle : get_all_active_lenders db = [] := List.isEmpty_iff.mp he
    have hrows : p.db.loan_matches = [] := by rw [hdb, hm]
    refine ⟨?_, ?_, ?_, ?_⟩
    · rw [hrows, hle]
      rfl
    · intro m hmem
      rw [hrows] at hmem
      exact absurd hmem (List.not_mem_nil m)
    · rw [hfinmatch]
      have := run_workers_length c llm aid
        ((get_all_active_lenders db).map (·.id)) p.db
      rw [this, hrows, hle]
      rfl
    · intro m hmem
      rw [hfinmatch] at hmem
      rcases List.mem_iff_getElem?.mp hmem with ⟨i, hi⟩
      have hnone : (run_workers c llm aid ((get_all_active_lenders db).map (·.id))
          p.db).db.loan_matches = [] := by
        rw [hle]
        show p.db.loan_matches = []
        exact hrows
      rw [hnone] at hi
      simp at hi
  · rw [if_neg he] at hbranch
    obtain ⟨hdb, _⟩ := hbranch
    have hrows : p.db.loan_matches =
        ((get_all_active_lenders db).map (·.id)).map (fun lid =>
          { loan_application_id := aid, lender_id := lid,
            match_score := Json.null, match_analysis := Json.null,
            status := MatchStatus.PENDING, error_message := none }) := by
      rw [hdb]
      show (create_match_records db aid _).loan_matches = _
      unfold create_match_records
      rw [hm]
      rfl
    have hnd : ((get_all_active_lenders db).map (·.id)).Nodup :=
      List.Nodup.sublist (List.Sublist.map (·.id) (List.filter_sublist db.lenders))
        hpk
    refine ⟨?_, ?_, ?_, ?_⟩
    · rw [hrows]
      simp
    · intro m hmem
      rw [hrows] at hmem
      rcases List.mem_map.mp hmem with ⟨lid, _, hml⟩
      rw [← hml]
    · rw [hfinmatch,
        run_workers_length c llm aid ((get_all_active_lenders db).map (·.id)) p.db,
        hrows]
      simp
    · intro m hmem
      rw [hfinmatch] at hmem
      rcases List.mem_iff_getElem?.mp hmem with ⟨i, hi⟩
      rcases hgi : ((get_all_active_lenders db).map (·.id))[i]? with _ | lid
      · have : i < ((get_all_active_lenders db).map (·.id)).length := by
          have h1 : i < (run_workers c llm aid
              ((get_all_active_lenders db).map (·.id)) p.db).db.loan_matches.length :=
            (List.getElem?_eq_some.mp hi).1
          rw [run_workers_length, hrows] at h1
          simpa using h1
        rw [List.getElem?_eq_getElem this] at hgi
        cases hgi
      · have hlid_mem : lid ∈ (get_all_active_lenders db).map (·.id) :=
          List.getElem?_mem hgi
        have hm0 : p.db.loan_matches[i]? = some
            { loan_application_id := aid, lender_id := lid,
              match_score := Json.null, match_analysis := Json.null,
              status := MatchStatus.PENDING, error_message := none } := by
          rw [hrows, List.getElem?_map, hgi]
          rfl
        have hrow := run_workers_row_in c llm aid
          ((get_all_active_lenders db).map (·.id)) p.db i _ lid hnd hlid_mem hm0
          (by simp [rowKeyB])
        rw [hi] at hrow
        injection hrow with hrow'
        rw [hrow']
        cases hpo : pairOutcome c llm p.db aid lid with
        | ok r =>
          left
          simp [matchFinalizer, hpo]
        | error e =>
          right
          simp [matchFinalizer, hpo]

/-- A successful run decomposes into its three steps. -/
theorem run_workflow_proj (c : Bool) (llm : Nat → LLMOutcome) (aid : Nat)
    (db : DB) (out : RunOutcome)
    (hrun : run_workflow c llm (some aid) db = Except.ok out) :
    ∃ p, prepare_matching (some aid) db = Except.ok p ∧
      out.db = (finalize_matching (calculate_matches c llm p.out p.db).out
        (calculate_matches c llm p.out p.db).db).db ∧
      out.states = db :: (p.commits ++
        (calculate_matches c llm p.out p.db).commits ++
        (finalize_matching (calculate_matches c llm p.out p.db).out
          (calculate_matches c llm p.out p.db).db).commits) := by
  unfold run_workflow at hrun
  cases hp : prepare_matching (some aid) db with
  | error e => rw [hp] at hrun; cases hrun
  | ok p =>
    rw [hp] at hrun
    dsimp only at hrun
    injection hrun with h1
    subst h1
    exact ⟨p, rfl, rfl, rfl⟩

/-- The dispatch step with an empty lender list is a no-op. -/
theorem calculate_matches_empty (c : Bool) (llm : Nat → LLMOutcome)
    (prep : PrepareResult) (db : DB) (h : prep.lender_ids = []) :
    calculate_matches c llm prep db =
      { db := db, commits := [],
        out := { application_id := prep.application_id, matches_out := [],
                 success_count := 0, failure_count := 0, total_count := none } } := by
  unfold calculate_matches
  rw [h]
  rfl

/-- C4: a run over an application with zero COMPLETED lenders at
prepare-time creates no LoanMatch rows, and the application still reaches
terminal status COMPLETED once the finalize step executes. -/
theorem claim_C4_zero_lenders_completes (c : Bool) (llm : Nat → LLMOutcome)
    (db : DB) (aid : Nat) (a : LoanApplication) (out : RunOutcome)
    (hz : get_all_active_lenders db = [])
    (happ : find_application db aid = some a)
    (hrun : run_workflow c llm (some aid) db = Except.ok out) :
    out.db.loan_matches = db.loan_matches ∧
    find_application out.db aid =
      some { a with status := ApplicationStatus.COMPLETED } := by
  obtain ⟨p, hp, hdbout, _⟩ := run_workflow_proj c llm aid db out hrun
  obtain ⟨haid, hids, hbranch⟩ := prepare_matching_spec db aid p hp
  have he : (get_all_active_lenders db).isEmpty = true := by rw [hz]; rfl
  rw [if_pos he] at hbranch
  obtain ⟨hpdb, _⟩ := hbranch
  have hidnil : p.out.lender_ids = [] := by rw [hids, hz]; rfl
  rw [calculate_matches_empty c llm p.out p.db hidnil] at hdbout
  have hout : out.db = update_application_status db aid
      ApplicationStatus.COMPLETED := by
    rw [hdbout, hpdb]
    show update_application_status db p.out.application_id _ = _
    rw [haid]
  constructor
  · rw [hout]
    exact update_application_status_matches db aid ApplicationStatus.COMPLETED
  · rw [hout, find_application_update_self, happ]
    rfl

/-- C9: with zero COMPLETED lenders at prepare-time the application is
never written PROCESSING: the run's observable application states are
exactly UPLOADED (initially) and then COMPLETED, because the PROCESSING
write sits on the non-empty-lenders branch of the prepare step. -/
theorem claim_C9_no_processing_on_empty (c : Bool) (llm : Nat → LLMOutcome)
    (db : DB) (aid : Nat) (a : LoanApplication) (out : RunOutcome)
    (hz : get_all_active_lenders db = [])
    (happ : find_application db aid = some a)
    (hst : a.status = ApplicationStatus.UPLOADED)
    (hrun : run_workflow c llm (some aid) db = Except.ok out) :
    out.states.map (fun s => (find_application s aid).map (fun x => x.status)) =
      [some ApplicationStatus.UPLOADED, some ApplicationStatus.COMPLETED] := by
  obtain ⟨p, hp, _, hstates⟩ := run_workflow_proj c llm aid db out hrun
  obtain ⟨haid, hids, hbranch⟩ := prepare_matching_spec db aid p hp
  have he : (get_all_active_lenders db).isEmpty = true := by rw [hz]; rfl
  rw [if_pos he] at hbranch
  obtain ⟨hpdb, hpcomm⟩ := hbranch
  have hidnil : p.out.lender_ids = [] := by rw [hids, hz]; rfl
  rw [calculate_matches_empty c llm p.out p.db hidnil] at hstates
  have hstates' : out.states =
      [db, update_application_status p.db p.out.application_id
        ApplicationStatus.COMPLETED] := by
    rw [hstates, hpcomm]
    rfl
  rw [hstates', List.map_cons, List.map_cons, List.map_nil]
  rw [hpdb, haid, find_application_update_self, happ]
  simp [hst]

/-- The finalizer never changes a row's lender id. -/
theorem matchFinalizer_lender_id (o : Except String MatchResult) (n : LoanMatch) :
    (matchFinalizer o n).lender_id = n.lender_id := by
  cases o <;> rfl

/-- The dispatch step's result list on the non-empty branch. -/
theorem calculate_matches_out_nonempty (c : Bool) (llm : Nat → LLMOutcome)
    (prep : PrepareResult) (db : DB) (h : prep.lender_ids.isEmpty = false) :
    (calculate_matches c llm prep db).out.matches_out =
      (run_workers c llm prep.application_id prep.lender_ids db).out := by
  unfold calculate_matches
  rw [if_neg (by rw [h]; exact Bool.false_ne_true)]

/-- Master lemma for the fan-out: in a fresh run, every final match row of
a dispatched pair is the PENDING row created for that pair, finalized
according to that pair's own outcome over the original database. -/
theorem dispatch_row_outcomes (c : Bool) (llm : Nat → LLMOutcome)
    (db : DB) (aid : Nat) (p : StepResult PrepareResult)
    (hm : db.loan_matches = [])
    (hpk : (db.lenders.map (·.id)).Nodup)
    (hprep : prepare_matching (some aid) db = Except.ok p) :
    ∀ lid ∈ p.out.lender_ids,
      ∀ m ∈ (calculate_matches c llm p.out p.db).db.loan_matches,
        m.lender_id = lid →
        m = matchFinalizer (pairOutcome c llm db aid lid)
          { loan_application_id := aid, lender_id := lid,
            match_score := Json.null, match_analysis := Json.null,
            status := MatchStatus.PENDING, error_message := none } := by
  obtain ⟨haid, hids, hbranch⟩ := prepare_matching_spec db aid p hprep
  by_cases he : (get_all_active_lenders db).isEmpty
  · intro lid hlid
    rw [hids, List.isEmpty_iff.mp he] at hlid
    exact absurd hlid (List.not_mem_nil lid)
  · rw [if_neg he] at hbranch
    obtain ⟨hdb, _⟩ := hbranch
    have hrows : p.db.loan_matches =
        ((get_all_active_lenders db).map (·.id)).map (fun lid =>
          { loan_application_id := aid, lender_id := lid,
            match_score := Json.null, match_analysis := Json.null,
            status := MatchStatus.PENDING, error_message := none }) := by
      rw [hdb]
      show (create_match_records db aid _).loan_matches = _
      unfold create_match_records
      rw [hm]
      rfl
    have hnd : ((get_all_active_lenders db).map (·.id)).Nodup :=
      List.Nodup.sublist (List.Sublist.map (·.id) (List.filter_sublist db.lenders))
        hpk
    have hpo_eq : ∀ lid, pairOutcome c llm p.db aid lid =
        pairOutcome c llm db aid lid := by
      intro lid
      rw [hdb, pairOutcome_update_status]
      exact pairOutcome_congr c llm aid lid rfl rfl
    have hfm : (calculate_matches c llm p.out p.db).db.loan_matches =
        (run_workers c llm aid ((get_all_active_lenders db).map (·.id))
          p.db).db.loan_matches := by
      rw [calculate_matches_db, haid, hids]
    intro lid hlid m hmem hml
    rw [hfm] at hmem
    rcases List.mem_iff_getElem?.mp hmem with ⟨i, hi⟩
    rcases hgi : ((get_all_active_lenders db).map (·.id))[i]? with _ | lid'
    · have hlt : i < ((get_all_active_lenders db).map (·.id)).length := by
        have h1 := (List.getElem?_eq_some.mp hi).1
        rw [run_workers_length, hrows] at h1
        simpa using h1
      rw [List.getElem?_eq_getElem hlt] at hgi
      cases hgi
    · have hlid'_mem : lid' ∈ (get_all_active_lenders db).map (·.id) :=
        List.getElem?_mem hgi
      have hm0 : p.db.loan_matches[i]? = some
          { loan_application_id := aid, lender_id := lid',
            match_score := Json.null, match_analysis := Json.null,
            status := MatchStatus.PENDING, error_message := none } := by
        rw [hrows, List.getElem?_map, hgi]
        rfl
      have hrow := run_workers_row_in c llm aid
        ((get_all_active_lenders db).map (·.id)) p.db i _ lid' hnd hlid'_mem hm0
        (by simp [rowKeyB])
      rw [hi] at hrow
      injection hrow with hrow'
      have hlid_eq : lid' = lid := by
        rw [hrow'] at hml
        rw [matchFinalizer_lender_id] at hml
        exact hml
      subst hlid_eq
      rw [hrow', hpo_eq]

/-- C3: in every fan-out of a fresh run, each pair yields one structured
result (no exception escapes the fan-out); a pair whose worker raises ends
with its LoanMatch FAILED and `error_message` set to the exception text,
while every other pair is finalized by its own outcome — in particular a
sibling whose scoring succeeds still ends COMPLETED with its score. -/
theorem claim_C3_pair_failure_isolation (c : Bool) (llm : Nat → LLMOutcome)
    (db : DB) (aid : Nat) (p : StepResult PrepareResult)
    (hm : db.loan_matches = [])
    (hpk : (db.lenders.map (·.id)).Nodup)
    (hprep : prepare_matching (some aid) db = Except.ok p) :
    (calculate_matches c llm p.out p.db).out.matches_out.length =
      p.out.lender_ids.length ∧
    ∀ lid ∈ p.out.lender_ids,
      (∀ e, pairOutcome c llm db aid lid = Except.error e →
        ∀ m ∈ (calculate_matches c llm p.out p.db).db.loan_matches,
          m.lender_id = lid →
          m.status = MatchStatus.FAILED ∧ m.error_message = some e) ∧
      (∀ r, pairOutcome c llm db aid lid = Except.ok r →
        ∀ m ∈ (calculate_matches c llm p.out p.db).db.loan_matches,
          m.lender_id = lid →
          m.status = MatchStatus.COMPLETED ∧ m.match_score = r.match_score) := by
  have hchar := dispatch_row_outcomes c llm db aid p hm hpk hprep
  constructor
  · by_cases he : p.out.lender_ids.isEmpty
    · rw [calculate_matches_empty c llm p.out p.db (List.isEmpty_iff.mp he),
        List.isEmpty_iff.mp he]
      rfl
    · have he' : p.out.lender_ids.isEmpty = false := by
        cases hb : p.out.lender_ids.isEmpty with
        | false => rfl
        | true => exact absurd hb he
      rw [calculate_matches_out_nonempty c llm p.out p.db he',
        run_workers_out]
      simp
  · intro lid hlid
    constructor
    · intro e hE m hmem hml
      have := hchar lid hlid m hmem hml
      rw [this, hE]
      exact ⟨rfl, rfl⟩
    · intro r hR m hmem hml
      have := hchar lid hlid m hmem hml
      rw [this, hR]
      exact ⟨rfl, rfl⟩

/-- C5: when the LLM response is not valid JSON, `calculate_match_score`
does not raise on account of the parse failure: it returns score 0 and an
analysis carrying the error marker and the raw response text. -/
theorem claim_C5_parse_failure_returns_zero (application_data lender_data : Json)
    (lender_name content : String) (aid lid tokens : Nat)
    (ha : application_data.truthy = true) (hl : lender_data.truthy = true) :
    ∃ r, MatchService.calculate_match_score true application_data lender_data
        lender_name aid lid (LLMOutcome.respond content none tokens) =
          Except.ok r ∧
      r.match_score = Json.num 0 ∧
      r.match_analysis.lookup "error" = some (Json.str "Failed to parse response") ∧
      r.match_analysis.lookup "raw_response" = some (Json.str content) := by
  refine ⟨{ match_score := Json.num 0,
            match_analysis := Json.obj [("match_score", Json.num 0),
              ("match_category", Json.str "error"),
              ("error", Json.str "Failed to parse response"),
              ("raw_response", Json.str content),
              ("_metadata", Json.obj [("model", Json.str matchModel),
                ("temperature", Json.num matchTemperature),
                ("tokens_used", Json.num (tokens : Rat)),
                ("application_id", Json.num (aid : Rat)),
                ("lender_id", Json.num (lid : Rat)),
                ("lender_name", Json.str lender_name),
                ("calculation_successful", Json.bool true)])] },
          ?_, rfl, rfl, rfl⟩
  unfold MatchService.calculate_match_score
  rw [ha, hl]
  rfl

/-- Lookup on an object is lookup in its entry list. -/
theorem Json.lookup_obj (es : List (String × Json)) (k : String) :
    (Json.obj es).lookup k = es.lookup k := rfl

/-- C10: every scoring call that returns records
`calculation_successful = True` in the attached metadata, regardless of
whether the LLM response parsed as valid JSON. -/
theorem claim_C10_success_flag_unconditional (c : Bool)
    (application_data lender_data : Json) (lender_name : String)
    (aid lid : Nat) (llm : LLMOutcome) (r : MatchResult)
    (h : MatchService.calculate_match_score c application_data lender_data
        lender_name aid lid llm = Except.ok r) :
    (r.match_analysis.lookup "_metadata").bind
        (fun j => j.lookup "calculation_successful") =
      some (Json.bool true) := by
  unfold MatchService.calculate_match_score at h
  cases c with
  | false => cases h
  | true =>
    cases hta : application_data.truthy with
    | false => rw [hta] at h; cases h
    | true =>
      rw [hta] at h
      cases htl : lender_data.truthy with
      | false => rw [htl] at h; cases h
      | true =>
        rw [htl] at h
        cases llm with
        | raiseErr msg => cases h
        | respond content parsed tokens =>
          cases parsed with
          | none =>
            injection h with h1
            rw [← h1]
            rfl
          | some j =>
            cases j with
            | obj es =>
              injection h with h1
              rw [← h1]
              dsimp only
              rw [Json.lookup_obj, lookup_setEntries_self]
              rfl
            | null => cases h
            | bool b => cases h
            | num q => cases h
            | str s => cases h
            | arr xs => cases h

/-- C6: an empty `application_data` or `lender_data` makes
`calculate_match_score` raise its validation error for every collaborator
behaviour (the collaborator is never consulted), and in the orchestrator a
pair with empty lender data is the only one affected: its LoanMatch ends
FAILED with that validation message, while any pair whose own outcome is a
success still ends COMPLETED. -/
theorem claim_C6_empty_input_validation (llm : Nat → LLMOutcome) (db : DB)
    (aid : Nat) (p : StepResult PrepareResult) (app : LoanApplication)
    (le : Lender) (lidE : Nat)
    (hm : db.loan_matches = [])
    (hpk : (db.lenders.map (·.id)).Nodup)
    (hprep : prepare_matching (some aid) db = Except.ok p)
    (hlidE : lidE ∈ p.out.lender_ids)
    (happ : find_application db aid = some app)
    (happdata : (pyOr app.processed_data).truthy = true)
    (hle : find_lender db lidE = some le)
    (hledata : (pyOr le.processed_data).truthy = false) :
    (∀ (lender_data : Json) (lender_name : String) (i j : Nat) (o : LLMOutcome),
      MatchService.calculate_match_score true (Json.obj []) lender_data
          lender_name i j o =
        Except.error "Match calculation failed: Application data is empty") ∧
    (∀ (application_data : Json) (lender_name : String) (i j : Nat)
        (o : LLMOutcome), application_data.truthy = true →
      MatchService.calculate_match_score true application_data (Json.obj [])
          lender_name i j o =
        Except.error "Match calculation failed: Lender data is empty") ∧
    (∀ m ∈ (calculate_matches true llm p.out p.db).db.loan_matches,
      m.lender_id = lidE →
      m.status = MatchStatus.FAILED ∧
      m.error_message = some "Match calculation failed: Lender data is empty") ∧
    (∀ lid' ∈ p.out.lender_ids, ∀ r,
      pairOutcome true llm db aid lid' = Except.ok r →
      ∀ m ∈ (calculate_matches true llm p.out p.db).db.loan_matches,
        m.lender_id = lid' → m.status = MatchStatus.COMPLETED) := by
  have hchar := dispatch_row_outcomes true llm db aid p hm hpk hprep
  have hpoE : pairOutcome true llm db aid lidE =
      Except.error "Match calculation failed: Lender data is empty" := by
    unfold pairOutcome
    rw [happ, hle]
    dsimp only
    unfold MatchService.calculate_match_score
    rw [happdata, hledata]
    rfl
  refine ⟨?_, ?_, ?_, ?_⟩
  · intro lender_data lender_name i j o
    rfl
  · intro application_data lender_name i j o hta
    unfold MatchService.calculate_match_score
    rw [hta]
    rfl
  · intro m hmem hml
    have := hchar lidE hlidE m hmem hml
    rw [this, hpoE]
    exact ⟨rfl, rfl⟩
  · intro lid' hlid' r hR m hmem hml
    have := hchar lid' hlid' m hmem hml
    rw [this, hR]
    rfl

/-- C8: on a dict input, `validate_and_enrich_data` attaches under the
internal `_validation` key a completeness score equal to the fraction of
the fixed required keys that are present and non-null, and leaves every
other key of the input unchanged. -/
theorem claim_C8_completeness_enrichment (entries : List (String × Json))
    (raw_text : String) :
    (∀ k, k ≠ "_validation" →
      (LLMService.validate_and_enrich_data (Json.obj entries) raw_text).lookup k =
        (Json.obj entries).lookup k) ∧
    ((LLMService.validate_and_enrich_data (Json.obj entries) raw_text).lookup
        "_validation").bind (fun j => j.lookup "completeness_score") =
      some (Json.num
        ((required_fields.countP (fun f =>
            match entries.lookup f with
            | some v => !v.isNull
            | none => false) : Rat) / (required_fields.length : Rat))) := by
  constructor
  · intro k hk
    unfold LLMService.validate_and_enrich_data
    dsimp only
    rw [Json.lookup_obj, Json.lookup_obj, lookup_setEntries_ne _ _ _ _ hk]
  · unfold LLMService.validate_and_enrich_data
    dsimp only
    rw [Json.lookup_obj, lookup_setEntries_self]
    show some _ = some _
    rw [Option.some_inj]
    refine congrArg Json.num ?_
    rw [List.countP_map]
    rfl

/-- The claimed LoanMatch invariant: `match_score` is non-NULL exactly on
COMPLETED rows. -/
def score_status_consistent (db : DB) : Prop :=
  ∀ m ∈ db.loan_matches,
    (m.match_score.isNull = false ↔ m.status = MatchStatus.COMPLETED)

/-- A scoring outcome whose stored score would be non-NULL: every raised
exception (nothing is stored), and every result carrying a non-null
`match_score` value. -/
def scoreNonNullB : Except String MatchResult → Bool
  | .ok r => !r.match_score.isNull
  | .error _ => true

/-- Invariant of the fan-out: starting from a state where the dispatched
pairs' rows are PENDING with NULL scores and every row satisfies the
score/status invariant, and where every dispatched pair's outcome stores a
non-null score, the invariant holds in the final state and in every
commit. -/
theorem run_workers_score_invariant (c : Bool) (llm : Nat → LLMOutcome)
    (aid : Nat) :
    ∀ (L : List Nat) (db : DB), L.Nodup →
      score_status_consistent db →
      (∀ m ∈ db.loan_matches, ∀ lid ∈ L, rowKeyB m aid lid = true →
        m.status = MatchStatus.PENDING ∧ m.match_score = Json.null) →
      (∀ lid ∈ L, scoreNonNullB (pairOutcome c llm db aid lid) = true) →
      score_status_consistent (run_workers c llm aid L db).db ∧
      ∀ t ∈ (run_workers c llm aid L db).commits, score_status_consistent t := by
  intro L
  induction L with
  | nil =>
    intro db _ hiff _ _
    exact ⟨hiff, fun t ht => absurd ht (List.not_mem_nil t)⟩
  | cons lid0 rest ih =>
    intro db hnd hiff hpend hscore
    have hdb1 := calculate_single_match_db c llm aid lid0 db
    have hiff1 : score_status_consistent (calculate_single_match c llm aid lid0 db).db := by
      intro m' hm'
      rw [hdb1] at hm'
      rcases List.mem_map.mp hm' with ⟨m, hmmem, hfm⟩
      by_cases hk : rowKeyB m aid lid0 = true
      · rw [if_pos hk] at hfm
        obtain ⟨hpst, hpnull⟩ :=
          hpend m hmmem lid0 (List.mem_cons_self lid0 rest) hk
        cases hpo : pairOutcome c llm db aid lid0 with
        | ok r =>
          have hs := hscore lid0 (List.mem_cons_self lid0 rest)
          rw [hpo] at hs
          have hs' : r.match_score.isNull = false := by
            simpa [scoreNonNullB] using hs
          rw [← hfm, hpo]
          simp [matchFinalizer, hs']
        | error e =>
          rw [← hfm, hpo]
          simp [matchFinalizer, hpnull, Json.isNull]
      · rw [if_neg (by simpa using hk)] at hfm
        rw [← hfm]
        exact hiff m hmmem
    have hpend1 : ∀ m' ∈ (calculate_single_match c llm aid lid0 db).db.loan_matches,
        ∀ lid' ∈ rest, rowKeyB m' aid lid' = true →
        m'.status = MatchStatus.PENDING ∧ m'.match_score = Json.null := by
      intro m' hm' lid' hlid' hk'
      rw [hdb1] at hm'
      rcases List.mem_map.mp hm' with ⟨m, hmmem, hfm⟩
      by_cases hk : rowKeyB m aid lid0 = true
      · exfalso
        rw [if_pos hk] at hfm
        rw [← hfm, rowKeyB_matchFinalizer] at hk'
        have h1 : m.lender_id = lid0 := by
          have := (by simpa [rowKeyB] using hk : m.loan_application_id = aid ∧
            m.lender_id = lid0)
          exact this.2
        have h2 : m.lender_id = lid' := by
          have := (by simpa [rowKeyB] using hk' : m.loan_application_id = aid ∧
            m.lender_id = lid')
          exact this.2
        exact (List.nodup_cons.mp hnd).1 ((h1.symm.trans h2) ▸ hlid')
      · rw [if_neg (by simpa using hk)] at hfm
        rw [← hfm]
        rw [← hfm] at hk'
        exact hpend m hmmem lid' (List.mem_cons_of_mem lid0 hlid') hk'
    have hscore1 : ∀ lid' ∈ rest,
        scoreNonNullB (pairOutcome c llm
          (calculate_single_match c llm aid lid0 db).db aid lid') = true := by
      intro lid' hlid'
      have htab := calculate_single_match_tables c llm aid lid0 db
      rw [pairOutcome_congr c llm aid lid' htab.1 htab.2.1]
      exact hscore lid' (List.mem_cons_of_mem lid0 hlid')
    obtain ⟨hfin, hcom⟩ := ih (calculate_single_match c llm aid lid0 db).db
      (List.nodup_cons.mp hnd).2 hiff1 hpend1 hscore1
    have hproc : score_status_consistent
        (update_match_rows db aid lid0
          (fun m => { m with status := MatchStatus.PROCESSING })) := by
      intro m' hm'
      rcases List.mem_map.mp hm' with ⟨m, hmmem, hfm⟩
      by_cases hk : rowKeyB m aid lid0 = true
      · rw [if_pos hk] at hfm
        obtain ⟨hpst, hpnull⟩ :=
          hpend m hmmem lid0 (List.mem_cons_self lid0 rest) hk
        rw [← hfm]
        simp [hpnull, Json.isNull]
      · rw [if_neg (by simpa using hk)] at hfm
        rw [← hfm]
        exact hiff m hmmem
    constructor
    · exact hfin
    · intro t ht
      have ht' : t ∈ (calculate_single_match c llm aid lid0 db).commits ++
          (run_workers c llm aid rest
            (calculate_single_match c llm aid lid0 db).db).commits := ht
      rcases List.mem_append.mp ht' with h | h
      · rcases calculate_single_match_commits c llm aid lid0 db t h with h2 | h2
        · rw [h2]
          exact hiff1
        · rw [h2]
          exact hproc
      · exact hcom t h

/-- C2 (amended): in a fresh run, provided every dispatched pair's scoring
outcome stores a non-null `match_score` value (which holds whenever the
parsed response's `match_score` is not JSON null — in particular on every
parse-failure fallback and on every raised exception), `match_score` is
non-NULL exactly on COMPLETED rows, at the initial state and after every
commit of the run. -/
theorem claim_C2_score_iff_completed_amended (c : Bool)
    (llm : Nat → LLMOutcome) (db : DB) (aid : Nat) (out : RunOutcome)
    (hm : db.loan_matches = [])
    (hpk : (db.lenders.map (·.id)).Nodup)
    (hscore : ∀ lid ∈ (get_all_active_lenders db).map (·.id),
      scoreNonNullB (pairOutcome c llm db aid lid) = true)
    (hrun : run_workflow c llm (some aid) db = Except.ok out) :
    ∀ s ∈ out.states, score_status_consistent s := by
  obtain ⟨p, hp, hdbout, hstates⟩ := run_workflow_proj c llm aid db out hrun
  obtain ⟨haid, hids, hbranch⟩ := prepare_matching_spec db aid p hp
  have hdbcons : score_status_consistent db := by
    intro m hmem
    rw [hm] at hmem
    exact absurd hmem (List.not_mem_nil m)
  by_cases he : (get_all_active_lenders db).isEmpty
  · rw [if_pos he] at hbranch
    obtain ⟨hpdb, hpcomm⟩ := hbranch
    have hidnil : p.out.lender_ids = [] := by
      rw [hids, List.isEmpty_iff.mp he]
      rfl
    rw [calculate_matches_empty c llm p.out p.db hidnil] at hstates
    have hstates' : out.states =
        [db, update_application_status p.db p.out.application_id
          ApplicationStatus.COMPLETED] := by
      rw [hstates, hpcomm]
      rfl
    intro s hs
    rw [hstates'] at hs
    rcases List.mem_pair.mp hs with h | h
    · rw [h]
      exact hdbcons
    · rw [h]
      intro m hmem
      rw [update_application_status_matches, hpdb, hm] at hmem
      exact absurd hmem (List.not_mem_nil m)
  · rw [if_neg he] at hbranch
    obtain ⟨hpdb, hpcomm⟩ := hbranch
    have hrows : p.db.loan_matches =
        ((get_all_active_lenders db).map (·.id)).map (fun lid =>
          { loan_application_id := aid, lender_id := lid,
            match_score := Json.null, match_analysis := Json.null,
            status := MatchStatus.PENDING, error_message := none }) := by
      rw [hpdb]
      show (create_match_records db aid _).loan_matches = _
      unfold create_match_records
      rw [hm]
      rfl
    have hnd : ((get_all_active_lenders db).map (·.id)).Nodup :=
      List.Nodup.sublist (List.Sublist.map (·.id) (List.filter_sublist db.lenders))
        hpk
    have hpcons : score_status_consistent p.db := by
      intro m hmem
      rw [hrows] at hmem
      rcases List.mem_map.mp hmem with ⟨lid, _, hml⟩
      rw [← hml]
      simp [Json.isNull]
    have hpo_eq : ∀ lid, pairOutcome c llm p.db aid lid =
        pairOutcome c llm db aid lid := by
      intro lid
      rw [hpdb, pairOutcome_update_status]
      exact pairOutcome_congr c llm aid lid rfl rfl
    have hpend : ∀ m ∈ p.db.loan_matches,
        ∀ lid ∈ (get_all_active_lenders db).map (·.id),
        rowKeyB m aid lid = true →
        m.status = MatchStatus.PENDING ∧ m.match_score = Json.null := by
      intro m hmem lid _ _
      rw [hrows] at hmem
      rcases List.mem_map.mp hmem with ⟨lid', _, hml⟩
      rw [← hml]
      exact ⟨rfl, rfl⟩
    have hscore' : ∀ lid ∈ (get_all_active_lenders db).map (·.id),
        scoreNonNullB (pairOutcome c llm p.db aid lid) = true := by
      intro lid hlid
      rw [hpo_eq]
      exact hscore lid hlid
    obtain ⟨hfin, hcom⟩ := run_workers_score_invariant c llm aid
      ((get_all_active_lenders db).map (·.id)) p.db hnd hpcons hpend hscore'
    have hcm_commits : (calculate_matches c llm p.out p.db).commits =
        (run_workers c llm aid ((get_all_active_lenders db).map (·.id))
          p.db).commits := by
      rw [calculate_matches_commits, haid, hids]
    have hcm_db : (calculate_matches c llm p.out p.db).db =
        (run_workers c llm aid ((get_all_active_lenders db).map (·.id))
          p.db).db := by
      rw [calculate_matches_db, haid, hids]
    intro s hs
    rw [hstates] at hs
    rcases List.mem_cons.mp hs with h | h
    · rw [h]
      exact hdbcons
    rcases List.mem_append.mp h with h2 | h2
    swap
    · -- finalize commit: the final database with only the application row
      -- rewritten
      have : s = (finalize_matching (calculate_matches c llm p.out p.db).out
          (calculate_matches c llm p.out p.db).db).db :=
        List.mem_singleton.mp h2
      rw [this]
      intro m hmem
      rw [finalize_matching_matches, hcm_db] at hmem
      exact hfin m hmem
    rcases List.mem_append.mp h2 with h3 | h3
    · -- prepare commits: created PENDING rows, then the application status
      -- write
      rw [hpcomm] at h3
      rcases List.mem_pair.mp h3 with h4 | h4
      · rw [h4]
        intro m hmem
        have hmem' : m ∈ p.db.loan_matches := by
          rw [hpdb]
          exact hmem
        exact hpcons m hmem'
      · rw [h4]
        intro m hmem
        have hmem' : m ∈ p.db.loan_matches := by
          rw [hpdb]
          exact hmem
        exact hpcons m hmem'
    · -- fan-out commits
      rw [hcm_commits] at h3
      exact hcom s h3

/-- A collaborator that answers with valid JSON whose `match_score` field
is JSON null. -/
def nullScoreLLM : Nat → LLMOutcome := fun _ =>
  LLMOutcome.respond "null-score" (some (Json.obj [("match_score", Json.null)])) 5

/-- An application with processed data. -/
def c2App : LoanApplication :=
  { id := 1
    status := ApplicationStatus.UPLOADED
    processed_data := some (Json.obj [("loan_amount", Json.num 1000)]) }

/-- A COMPLETED lender with policy data. -/
def c2Lender : Lender :=
  { id := 1
    lender_name := "L1"
    status := LenderStatus.COMPLETED
    processed_data := some (Json.obj [("policy", Json.str "p")]) }

/-- One application and one COMPLETED lender, both with data. -/
def c2DB : DB :=
  { applications := [c2App]
    lenders := [c2Lender]
    loan_matches := [] }

/-- The database a run over `c2DB` against `nullScoreLLM` leaves behind. -/
def c2FinalDB : DB :=
  match run_workflow true nullScoreLLM (some 1) c2DB with
  | .ok o => o.db
  | .error _ => c2DB

/-- C2 (counterexample to the claim as stated): the orchestrator reaches a
database holding a LoanMatch in status COMPLETED whose `match_score` is
NULL — the run completes, yet "non-null iff COMPLETED" fails, because a
parsed response carrying `match_score: null` is stored as-is. -/
theorem claim_C2_counterexample :
    (run_workflow true nullScoreLLM (some 1) c2DB).toOption.isSome = true ∧
    ¬ score_status_consistent c2FinalDB := by
  constructor
  · rfl
  · intro h
    have hmap : c2FinalDB.loan_matches.map
        (fun m => (m.status, m.match_score.isNull)) =
        [(MatchStatus.COMPLETED, true)] := rfl
    cases hl : c2FinalDB.loan_matches with
    | nil =>
      rw [hl] at hmap
      cases hmap
    | cons a t =>
      cases t with
      | cons b t2 =>
        rw [hl] at hmap
        simp at hmap
      | nil =>
        rw [hl] at hmap
        injection hmap with h1 _
        have hst : a.status = MatchStatus.COMPLETED := congrArg Prod.fst h1
        have hnull : a.match_score.isNull = true := congrArg Prod.snd h1
        have ha := h a (by rw [hl]; exact List.mem_singleton_self a)
        have hfalse : a.match_score.isNull = false := ha.mpr hst
        rw [hfalse] at hnull
        cases hnull

/-- C7: a matches query with a `min_score` filter returns exactly the
application's matches whose score satisfies the filter (as a permutation
of that filtered set), ordered by score descending. -/
theorem claim_C7_min_score_query (db : DB) (aid : Nat) (q : Rat)
    (l : List LoanMatch)
    (h : get_application_matches db aid none (some q) = Except.ok l) :
    l.Perm (db.loan_matches.filter (fun m =>
      m.loan_application_id == aid && scoreGeB m q)) ∧
    l.Pairwise matchDescOrder := by
  unfold get_application_matches at h
  cases hfa : find_application db aid with
  | none =>
    rw [hfa] at h
    cases h
  | some a =>
    rw [hfa] at h
    dsimp only [apply_status_filter] at h
    injection h with h1
    subst h1
    constructor
    · refine (List.perm_insertionSort matchDescOrder _).trans ?_
      rw [List.filter_filter]
      have : ∀ m ∈ db.loan_matches,
          (scoreGeB m q && (m.loan_application_id == aid)) =
            (m.loan_application_id == aid && scoreGeB m q) := by
        intro m _
        exact Bool.and_comm _ _
      exact (List.filter_congr this) ▸ List.Perm.refl _
    · exact List.sorted_insertionSort matchDescOrder _

/-! Concrete fixtures used by the witnesses. -/

/-- A demo application with processed data. -/
def demoApp : LoanApplication :=
  { id := 1
    status := ApplicationStatus.UPLOADED
    processed_data := some (Json.obj [("loan_amount", Json.num 50000)]) }

/-- A COMPLETED lender whose pair's collaborator call will raise. -/
def demoLender1 : Lender :=
  { id := 1
    lender_name := "Alpha Bank"
    status := LenderStatus.COMPLETED
    processed_data := some (Json.obj [("max_amount", Json.num 100000)]) }

/-- A COMPLETED lender whose pair's scoring succeeds. -/
def demoLender2 : Lender :=
  { id := 2
    lender_name := "Beta Bank"
    status := LenderStatus.COMPLETED
    processed_data := some (Json.obj [("max_amount", Json.num 200000)]) }

/-- A COMPLETED lender with no processed data (stored NULL). -/
def demoLenderEmpty : Lender :=
  { id := 3
    lender_name := "Gamma Bank"
    status := LenderStatus.COMPLETED
    processed_data := none }

/-- A lender that is not yet COMPLETED. -/
def demoLenderInactive : Lender :=
  { id := 4
    lender_name := "Delta Bank"
    status := LenderStatus.UPLOADED
    processed_data := none }

/-- Demo database: one application, two COMPLETED lenders, one inactive. -/
def demoDB : DB :=
  { applications := [demoApp]
    lenders := [demoLender1, demoLender2, demoLenderInactive]
    loan_matches := [] }

/-- Collaborator: raises for lender 1, answers a valid score of 85 for
every other lender. -/
def demoLLM : Nat → LLMOutcome := fun lid =>
  if lid == 1 then LLMOutcome.raiseErr "boom"
  else LLMOutcome.respond "resp" (some (Json.obj [("match_score", Json.num 85)])) 7

/-- Fallback run outcome used when a fixture run fails to start. -/
def dummyRun : RunOutcome :=
  { db := demoDB
    states := []
    prep := { application_id := 0, lender_ids := [] }
    calcOut := { application_id := 0, matches_out := [], success_count := 0,
                 failure_count := 0, total_count := none }
    result := { application_id := 0, status := "", success_count := 0,
                failure_count := 0 } }

/-- The prepare step of the demo run. -/
def demoPrep : StepResult PrepareResult :=
  match prepare_matching (some 1) demoDB with
  | .ok p => p
  | .error _ =>
    { db := demoDB, commits := [],
      out := { application_id := 0, lender_ids := [] } }

/-- The full demo run. -/
def demoOut : RunOutcome :=
  match run_workflow true demoLLM (some 1) demoDB with
  | .ok o => o
  | .error _ => dummyRun

/-- Witness for C1: the demo database holds two COMPLETED lenders, so the
prepare step leaves exactly two PENDING rows and after finalize both rows
are terminal. -/
theorem claim_C1_witness :
    demoPrep.db.loan_matches.length = 2 ∧
    (∀ m ∈ demoPrep.db.loan_matches, m.status = MatchStatus.PENDING) ∧
    (finalize_matching (calculate_matches true demoLLM demoPrep.out demoPrep.db).out
        (calculate_matches true demoLLM demoPrep.out demoPrep.db).db).db.loan_matches.length = 2 ∧
    ∀ m ∈ (finalize_matching (calculate_matches true demoLLM demoPrep.out demoPrep.db).out
        (calculate_matches true demoLLM demoPrep.out demoPrep.db).db).db.loan_matches,
      m.status = MatchStatus.COMPLETED ∨ m.status = MatchStatus.FAILED := by
  have h := claim_C1_match_row_lifecycle true demoLLM demoDB 1 demoPrep rfl
    (by decide) rfl
  exact ⟨h.1, h.2.1, h.2.2.1, h.2.2.2⟩

/-- The scoring result of the demo pair (application 1, lender 2). -/
def demoR2 : MatchResult :=
  match pairOutcome true demoLLM demoDB 1 2 with
  | .ok r => r
  | .error _ => { match_score := Json.null, match_analysis := Json.null }

/-- Witness for C3: in the demo run pair 1 raises and ends FAILED with the
wrapped exception text, while its sibling pair 2 still ends COMPLETED with
its score; the fan-out returns a result for both pairs. -/
theorem claim_C3_witness :
    (calculate_matches true demoLLM demoPrep.out demoPrep.db).out.matches_out.length = 2 ∧
    (∀ m ∈ (calculate_matches true demoLLM demoPrep.out demoPrep.db).db.loan_matches,
      m.lender_id = 1 →
      m.status = MatchStatus.FAILED ∧
      m.error_message = some "Match calculation failed: boom") ∧
    (∀ m ∈ (calculate_matches true demoLLM demoPrep.out demoPrep.db).db.loan_matches,
      m.lender_id = 2 →
      m.status = MatchStatus.COMPLETED ∧ m.match_score = demoR2.match_score) := by
  have h := claim_C3_pair_failure_isolation true demoLLM demoDB 1 demoPrep rfl
    (by decide) rfl
  refine ⟨h.1, ?_, ?_⟩
  · exact (h.2 1 (by decide)).1 "Match calculation failed: boom" rfl
  · exact (h.2 2 (by decide)).2 demoR2 rfl

/-- Witness for C2 (amended): in the demo run every pair's outcome stores
a non-null score, and the invariant holds at the run's final state (its
last commit). -/
theorem claim_C2_amended_witness :
    score_status_consistent demoOut.db :=
  claim_C2_score_iff_completed_amended true demoLLM demoDB 1 demoOut rfl
    (by decide) (by decide) rfl demoOut.db
    (List.mem_iff_getElem?.mpr ⟨7, rfl⟩)

/-- Database with no COMPLETED lender. -/
def zeroDB : DB :=
  { applications := [demoApp]
    lenders := [demoLenderInactive]
    loan_matches := [] }

/-- The run over the zero-lender database. -/
def zeroOut : RunOutcome :=
  match run_workflow true demoLLM (some 1) zeroDB with
  | .ok o => o
  | .error _ => dummyRun

/-- Witness for C4: with zero COMPLETED lenders, no match rows are created
and the application ends COMPLETED. -/
theorem claim_C4_witness :
    zeroOut.db.loan_matches = zeroDB.loan_matches ∧
    find_application zeroOut.db 1 =
      some { demoApp with status := ApplicationStatus.COMPLETED } :=
  claim_C4_zero_lenders_completes true demoLLM zeroDB 1 demoApp zeroOut rfl rfl rfl

/-- Witness for C9: the zero-lender run's application states are exactly
UPLOADED then COMPLETED — PROCESSING is never observed. -/
theorem claim_C9_witness :
    zeroOut.states.map (fun s => (find_application s 1).map (fun x => x.status)) =
      [some ApplicationStatus.UPLOADED, some ApplicationStatus.COMPLETED] :=
  claim_C9_no_processing_on_empty true demoLLM zeroDB 1 demoApp zeroOut rfl rfl
    rfl rfl

/-- Witness for C5: a malformed response yields score 0 with the error
marker and the raw text. -/
theorem claim_C5_witness :
    ∃ r, MatchService.calculate_match_score true (Json.obj [("a", Json.num 1)])
        (Json.obj [("b", Json.num 2)]) "Alpha Bank" 1 2
        (LLMOutcome.respond "not json" none 3) = Except.ok r ∧
      r.match_score = Json.num 0 ∧
      r.match_analysis.lookup "error" = some (Json.str "Failed to parse response") ∧
      r.match_analysis.lookup "raw_response" = some (Json.str "not json") :=
  claim_C5_parse_failure_returns_zero (Json.obj [("a", Json.num 1)])
    (Json.obj [("b", Json.num 2)]) "Alpha Bank" "not json" 1 2 3 rfl rfl

/-- Database whose COMPLETED lender 3 has no processed data. -/
def c6DB : DB :=
  { applications := [demoApp]
    lenders := [demoLenderEmpty, demoLender2]
    loan_matches := [] }

/-- The prepare step of the empty-lender-data run. -/
def c6Prep : StepResult PrepareResult :=
  match prepare_matching (some 1) c6DB with
  | .ok p => p
  | .error _ =>
    { db := c6DB, commits := [],
      out := { application_id := 0, lender_ids := [] } }

/-- The scoring result of pair (application 1, lender 2) in the C6 run. -/
def c6R2 : MatchResult :=
  match pairOutcome true demoLLM c6DB 1 2 with
  | .ok r => r
  | .error _ => { match_score := Json.null, match_analysis := Json.null }

/-- Witness for C6: empty input data raises the validation error for any
collaborator behaviour, and in the run over `c6DB` only lender 3's pair is
FAILED with that message while lender 2's pair ends COMPLETED. -/
theorem claim_C6_witness :
    (MatchService.calculate_match_score true (Json.obj [])
        (Json.obj [("b", Json.num 1)]) "X" 1 2 (LLMOutcome.raiseErr "down") =
      Except.error "Match calculation failed: Application data is empty") ∧
    (MatchService.calculate_match_score true (Json.obj [("a", Json.num 1)])
        (Json.obj []) "X" 1 2 (LLMOutcome.raiseErr "down") =
      Except.error "Match calculation failed: Lender data is empty") ∧
    (∀ m ∈ (calculate_matches true demoLLM c6Prep.out c6Prep.db).db.loan_matches,
      m.lender_id = 3 →
      m.status = MatchStatus.FAILED ∧
      m.error_message = some "Match calculation failed: Lender data is empty") ∧
    (∀ m ∈ (calculate_matches true demoLLM c6Prep.out c6Prep.db).db.loan_matches,
      m.lender_id = 2 → m.status = MatchStatus.COMPLETED) := by
  have h := claim_C6_empty_input_validation demoLLM c6DB 1 c6Prep demoApp
    demoLenderEmpty 3 rfl (by decide) rfl (by decide) rfl rfl rfl rfl
  refine ⟨?_, ?_, h.2.2.1, ?_⟩
  · exact h.1 (Json.obj [("b", Json.num 1)]) "X" 1 2 (LLMOutcome.raiseErr "down")
  · exact h.2.1 (Json.obj [("a", Json.num 1)]) "X" 1 2
      (LLMOutcome.raiseErr "down") rfl
  · exact h.2.2.2 2 (by decide) c6R2 rfl

/-- A stored query fixture: three COMPLETED matches for application 1 with
scores 55, 95 and 75. -/
def c7Row (lid : Nat) (score : Rat) : LoanMatch :=
  { loan_application_id := 1
    lender_id := lid
    match_score := Json.num score
    match_analysis := Json.null
    status := MatchStatus.COMPLETED
    error_message := none }

/-- Query-fixture database. -/
def c7DB : DB :=
  { applications := [{ id := 1
                       status := ApplicationStatus.COMPLETED
                       processed_data := none }]
    lenders := []
    loan_matches := [c7Row 1 55, c7Row 2 95, c7Row 3 75] }

/-- The list the matches route returns for min_score = 70. -/
def c7Result : List LoanMatch :=
  match get_application_matches c7DB 1 none (some 70) with
  | .ok l => l
  | .error _ => []

/-- Witness for C7: filtering by min_score = 70 over scores
[55, 95, 75] returns exactly the two rows scoring 95 and 75, in
descending order. -/
theorem claim_C7_witness :
    (c7Result.Perm (c7DB.loan_matches.filter (fun m =>
        m.loan_application_id == 1 && scoreGeB m 70)) ∧
      c7Result.Pairwise matchDescOrder) ∧
    c7Result.map (fun m => m.match_score) = [Json.num 95, Json.num 75] ∧
    c7Result.length = 2 :=
  ⟨claim_C7_min_score_query c7DB 1 70 c7Result rfl, rfl, rfl⟩

/-- Enrichment fixture: one required key present non-null, one present but
null, one absent, plus an unrelated key. -/
def c8Entries : List (String × Json) :=
  [("loan_types", Json.str "personal"),
   ("interest_rates", Json.null),
   ("other", Json.num 1)]

/-- Witness for C8: the unrelated key is unchanged and the completeness
score is 1/3 (one of the three required keys present and non-null). -/
theorem claim_C8_witness :
    (LLMService.validate_and_enrich_data (Json.obj c8Entries) "raw").lookup
        "other" = (Json.obj c8Entries).lookup "other" ∧
    ((LLMService.validate_and_enrich_data (Json.obj c8Entries) "raw").lookup
        "_validation").bind (fun j => j.lookup "completeness_score") =
      some (Json.num ((1 : Rat) / 3)) := by
  have h := claim_C8_completeness_enrichment c8Entries "raw"
  exact ⟨h.1 "other" (by decide), h.2⟩

/-- The result of a scoring call over a malformed response. -/
def c10R : MatchResult :=
  match MatchService.calculate_match_score true (Json.obj [("a", Json.num 1)])
      (Json.obj [("b", Json.num 2)]) "Alpha Bank" 1 2
      (LLMOutcome.respond "not json" none 3) with
  | .ok r => r
  | .error _ => { match_score := Json.null, match_analysis := Json.null }

/-- Witness for C10: even for a malformed (unparseable) response, the
returned metadata records `calculation_successful = True`. -/
theorem claim_C10_witness :
    (c10R.match_analysis.lookup "_metadata").bind
        (fun j => j.lookup "calculation_successful") =
      some (Json.bool true) :=
  claim_C10_success_flag_unconditional true (Json.obj [("a", Json.num 1)])
    (Json.obj [("b", Json.num 2)]) "Alpha Bank" 1 2
    (LLMOutcome.respond "not json" none 3) c10R rfl
